import Mathlib

/-!
Verification of the OTP applet of pico-fido-microkey (`src/fido/otp.c`)
against its natural-language specification.

The development shallowly embeds the C code: machine integers are `Nat`
with explicit truncation (`% 256`, `% 65536`) where the C code relies on
fixed-width wraparound, buffers are `List Nat` of byte values, and the
mutable device state is threaded explicitly.  External collaborators
(AES, HMAC-SHA1, the serial number, the millisecond clock, the button)
are parameters of the embedded functions.
-/

set_option maxRecDepth 100000

namespace PicoFido

/-! ### Byte-order helpers

`put_uint16_t_le` / `get_uint16_t_le` / `get_uint16_t_be` are helpers of
the surrounding SDK that are not part of `src/`.  Modelled from the spec:
they write/read a 16-bit value in little-endian (resp. big-endian) byte
order, which is how the spec describes every multi-byte field
(`counter_LE`, `crc_le`, big-endian use counter). -/

/-- Modelled from the spec: write a 16-bit value as two little-endian bytes. -/
def put_uint16_t_le (v : Nat) : List Nat :=
  [v % 256, v / 256 % 256]

/-- Modelled from the spec: read a little-endian 16-bit value at offset `off`. -/
def get_uint16_t_le (d : List Nat) (off : Nat) : Nat :=
  d.getD off 0 % 256 + 256 * (d.getD (off + 1) 0 % 256)

/-- Modelled from the spec: read a big-endian 16-bit value at offset `off`. -/
def get_uint16_t_be (d : List Nat) (off : Nat) : Nat :=
  256 * (d.getD off 0 % 256) + d.getD (off + 1) 0 % 256

/-! ### CRC-16 (`calculate_crc`, otp.c lines 188-201) -/

/-- One iteration of the inner `for (i = 0; i < 8; i++)` loop of
`calculate_crc`: shift right by one bit and xor the polynomial `0x8408`
when the shifted-out bit was set. -/
def crcRound (c : Nat) : Nat :=
  if c % 2 = 1 then c / 2 ^^^ 0x8408 else c / 2

/-- The inner loop of `calculate_crc`, run `i` times. -/
def crcInner : Nat → Nat → Nat
  | 0, c => c
  | i + 1, c => crcInner i (crcRound c)

/-- The body of the outer loop of `calculate_crc`: absorb one data byte
(`crc ^= data[idx]`, then eight `crcRound`s).  The `% 256` records that
`data` is a `uint8_t` array. -/
def crcByte (c b : Nat) : Nat :=
  crcInner 8 (c ^^^ b % 256)

/-- The function `calculate_crc` of otp.c: CRC-16 with reflected
polynomial `0x8408`, initial value `0xFFFF`, no final xor; the final
`& 0xFFFF` mirrors the source. -/
def calculate_crc (data : List Nat) : Nat :=
  (data.foldl crcByte 0xFFFF) &&& 0xFFFF

/-! ### Bounds for the CRC state -/

theorem crcRound_lt {c : Nat} (hc : c < 65536) : crcRound c < 65536 := by
  unfold crcRound
  have hdiv : c / 2 < 65536 := Nat.lt_of_le_of_lt (Nat.div_le_self c 2) hc
  split
  · exact Nat.xor_lt_two_pow (n := 16) hdiv (by norm_num)
  · exact hdiv

theorem crcInner_lt : ∀ i {c : Nat}, c < 65536 → crcInner i c < 65536
  | 0, _, hc => hc
  | i + 1, _, hc => crcInner_lt i (crcRound_lt hc)

theorem crcByte_lt {c : Nat} (b : Nat) (hc : c < 65536) : crcByte c b < 65536 := by
  unfold crcByte
  exact crcInner_lt 8 (Nat.xor_lt_two_pow (n := 16) hc
    (Nat.lt_trans (Nat.mod_lt b (by norm_num)) (by norm_num)))

theorem foldl_crcByte_lt (data : List Nat) :
    ∀ {c : Nat}, c < 65536 → data.foldl crcByte c < 65536 := by
  induction data with
  | nil => intro c hc; exact hc
  | cons b bs ih => intro c hc; exact ih (crcByte_lt b hc)

theorem calculate_crc_lt (data : List Nat) : calculate_crc data < 65536 := by
  unfold calculate_crc
  have := foldl_crcByte_lt data (c := 0xFFFF) (by norm_num)
  have h2 : (2 : Nat) ^ 16 - 1 = 65535 := by norm_num
  calc data.foldl crcByte 0xFFFF &&& 0xFFFF
      ≤ 0xFFFF := by
        have := Nat.and_le_right (n := data.foldl crcByte 0xFFFF) (m := 0xFFFF)
        exact this
    _ < 65536 := by norm_num

theorem and_mask_of_lt {x : Nat} (hx : x < 65536) : x &&& 0xFFFF = x := by
  have h1 : x &&& 2 ^ 16 - 1 = x :=
    Nat.and_pow_two_sub_one_of_lt_two_pow (by norm_num [hx])
  simpa using h1

theorem calculate_crc_eq_foldl (data : List Nat) :
    calculate_crc data = data.foldl crcByte 0xFFFF := by
  unfold calculate_crc
  exact and_mask_of_lt (foldl_crcByte_lt data (by norm_num))

/-! ### The CRC residue property

Appending the inverted CRC (little-endian) to a buffer makes the CRC of
the extended buffer the constant residue `0xF0B8`.  The proof is
algebraic: after xoring in the complemented low byte the state has the
shape `2^k * h + (2^k - 1)`, so the branch taken by each of the sixteen
`crcRound`s is independent of the data. -/

/-- The effect of one `crcRound` on the constant part of a state of the
form `odd ^^^ s`: the round on `a ^^^ s` for odd `a` shifts `a` and
transforms `s` by this function. -/
def crcSStep (s : Nat) : Nat :=
  if s % 2 = 1 then s / 2 else s / 2 ^^^ 0x8408

/-- Iterated `crcSStep`. -/
def crcSIter : Nat → Nat → Nat
  | 0, s => s
  | k + 1, s => crcSIter k (crcSStep s)

theorem crcRound_xor_odd (a s : Nat) (ha : a % 2 = 1) :
    crcRound (a ^^^ s) = a / 2 ^^^ crcSStep s := by
  unfold crcRound crcSStep
  rcases Nat.mod_two_eq_zero_or_one s with hs | hs
  · have hx : (a ^^^ s) % 2 = 1 := by
      rw [Nat.xor_mod_two_eq_one]
      omega
    rw [if_pos hx, if_neg (by omega), Nat.xor_div_two, Nat.xor_assoc]
  · have hx : ¬((a ^^^ s) % 2 = 1) := by
      rw [Nat.xor_mod_two_eq_one]
      intro hcon
      exact hcon (by omega)
    rw [if_neg hx, if_pos hs, Nat.xor_div_two]

theorem crcInner_ones (k : Nat) :
    ∀ h s, crcInner k ((2 ^ k * h + (2 ^ k - 1)) ^^^ s) = h ^^^ crcSIter k s := by
  induction k with
  | zero =>
    intro h s
    simp [crcInner, crcSIter]
  | succ k ih =>
    intro h s
    have hmul : 2 ^ (k + 1) * h = 2 * (2 ^ k * h) := by ring
    have hpow : 2 ^ (k + 1) = 2 * 2 ^ k := by ring
    have hpos : 1 ≤ 2 ^ k := Nat.one_le_two_pow
    have hodd : (2 ^ (k + 1) * h + (2 ^ (k + 1) - 1)) % 2 = 1 := by
      rw [hmul, hpow]
      omega
    have hhalf : (2 ^ (k + 1) * h + (2 ^ (k + 1) - 1)) / 2 = 2 ^ k * h + (2 ^ k - 1) := by
      rw [hmul, hpow]
      omega
    show crcInner k (crcRound ((2 ^ (k + 1) * h + (2 ^ (k + 1) - 1)) ^^^ s)) = _
    rw [crcRound_xor_odd _ _ hodd, hhalf]
    exact ih h (crcSStep s)

theorem mul256_xor (a : Nat) {x : Nat} (hx : x < 256) : 256 * a ^^^ x = 256 * a + x := by
  apply Nat.eq_of_testBit_eq
  intro j
  have h256 : (256 : Nat) = 2 ^ 8 := by norm_num
  rw [Nat.testBit_xor, h256, Nat.testBit_mul_pow_two_add a (by norm_num [← h256] at hx ⊢; omega) j,
    Nat.testBit_mul_pow_two]
  by_cases hj : j < 8
  · simp [hj, Nat.not_le_of_lt hj]
  · have hxj : Nat.testBit x j = false := by
      apply Nat.testBit_lt_two_pow
      calc x < 2 ^ 8 := by omega
        _ ≤ 2 ^ j := Nat.pow_le_pow_right (by norm_num) (by omega)
    simp [hj, Nat.le_of_not_lt hj, hxj]

theorem sub_eq_xor_255 : ∀ x, x < 256 → 255 - x = 255 ^^^ x := by decide

theorem xor_cancel_mid (a b c : Nat) : (a ^^^ b) ^^^ (b ^^^ c) = a ^^^ c := by
  rw [Nat.xor_assoc, ← Nat.xor_assoc b b c, Nat.xor_self, Nat.zero_xor]

/-- The CRC residue property for the inner state: absorbing the two
complement bytes of a 16-bit CRC state always yields `0xF0B8`. -/
theorem crcByte_residue (c : Nat) (hc : c < 65536) :
    crcByte (crcByte c ((65535 - c) % 256)) ((65535 - c) / 256 % 256) = 0xF0B8 := by
  have hcl : c % 256 < 256 := Nat.mod_lt c (by norm_num)
  have hh : c / 256 < 256 := by omega
  have hlo : (65535 - c) % 256 = 255 - c % 256 := by omega
  have hhi : (65535 - c) / 256 % 256 = 255 - c / 256 := by omega
  -- inner byte
  have hinner : crcByte c ((65535 - c) % 256) = c / 256 ^^^ crcSIter 8 0 := by
    unfold crcByte
    rw [hlo]
    have hb : (255 - c % 256) % 256 = 255 - c % 256 := Nat.mod_eq_of_lt (by omega)
    rw [hb, sub_eq_xor_255 _ (by omega)]
    have hsplit : c = 256 * (c / 256) + c % 256 := by omega
    have hx : c ^^^ (255 ^^^ c % 256) = 2 ^ 8 * (c / 256) + (2 ^ 8 - 1) := by
      calc c ^^^ (255 ^^^ c % 256)
          = (256 * (c / 256) ^^^ c % 256) ^^^ (c % 256 ^^^ 255) := by
            rw [mul256_xor _ hcl, ← hsplit, Nat.xor_comm 255 (c % 256)]
        _ = 256 * (c / 256) ^^^ 255 := xor_cancel_mid _ _ _
        _ = 2 ^ 8 * (c / 256) + (2 ^ 8 - 1) := by
            rw [mul256_xor _ (by norm_num)]
            norm_num
    rw [hx]
    have := crcInner_ones 8 (c / 256) 0
    simpa using this
  rw [hinner, hhi]
  unfold crcByte
  have hb2 : (255 - c / 256) % 256 = 255 - c / 256 := Nat.mod_eq_of_lt (by omega)
  rw [hb2, sub_eq_xor_255 _ (by omega)]
  have hx2 : (c / 256 ^^^ crcSIter 8 0) ^^^ (255 ^^^ c / 256) = crcSIter 8 0 ^^^ 255 := by
    calc (c / 256 ^^^ crcSIter 8 0) ^^^ (255 ^^^ c / 256)
        = (crcSIter 8 0 ^^^ c / 256) ^^^ (c / 256 ^^^ 255) := by
          rw [Nat.xor_comm (c / 256) (crcSIter 8 0), Nat.xor_comm 255 (c / 256)]
      _ = crcSIter 8 0 ^^^ 255 := xor_cancel_mid _ _ _
  rw [hx2]
  decide

/-- Appending `put_uint16_t_le (~crc)` to any buffer produces a buffer
whose CRC is the verify residue `0xF0B8`. -/
theorem calculate_crc_append_residue (data : List Nat) :
    calculate_crc (data ++ put_uint16_t_le (65535 - calculate_crc data)) = 0xF0B8 := by
  have hlt : data.foldl crcByte 0xFFFF < 65536 := foldl_crcByte_lt data (by norm_num)
  rw [calculate_crc_eq_foldl data]
  unfold calculate_crc put_uint16_t_le
  rw [List.foldl_append]
  simp only [List.foldl_cons, List.foldl_nil]
  rw [and_mask_of_lt (crcByte_lt _ (crcByte_lt _ hlt))]
  exact crcByte_residue (data.foldl crcByte 0xFFFF) hlt

/-! ### The slot record (`otp_config_t`)

The packed struct has fields `fixed_data[16]`, `uid[6]`, `aes_key[16]`,
`acc_code[6]`, `fixed_size`, `ext_flags`, `tkt_flags`, `cfg_flags`,
`rfu[2]`, `crc` (a little-endian `uint16_t`).  A record is embedded as
its raw byte list; the accessors read at the packed offsets. -/

def FIXED_SIZE : Nat := 16
def KEY_SIZE : Nat := 16
def UID_SIZE : Nat := 6
def ACC_CODE_SIZE : Nat := 6

/-- Size in bytes of the packed `otp_config_t` struct (`sizeof`). -/
def otp_config_size : Nat := 16 + 6 + 16 + 6 + 1 + 1 + 1 + 1 + 2 + 2

def fixed_data (r : List Nat) : List Nat := r.take 16
def uid (r : List Nat) : List Nat := (r.drop 16).take 6
def aes_key (r : List Nat) : List Nat := (r.drop 22).take 16
def acc_code (r : List Nat) : List Nat := (r.drop 38).take 6
def fixed_size (r : List Nat) : Nat := r.getD 44 0
def ext_flags (r : List Nat) : Nat := r.getD 45 0
def tkt_flags (r : List Nat) : Nat := r.getD 46 0
def cfg_flags (r : List Nat) : Nat := r.getD 47 0
def rfu0 (r : List Nat) : Nat := r.getD 48 0
def rfu1 (r : List Nat) : Nat := r.getD 49 0

/-! ### Flag constants (the `#define`s of otp.c) -/

def SERIAL_BTN_VISIBLE : Nat := 0x01
def SERIAL_USB_VISIBLE : Nat := 0x02
def SERIAL_API_VISIBLE : Nat := 0x04
def USE_NUMERIC_KEYPAD : Nat := 0x08
def FAST_TRIG : Nat := 0x10
def ALLOW_UPDATE : Nat := 0x20
def DORMANT : Nat := 0x40
def LED_INV : Nat := 0x80
def EXTFLAG_UPDATE_MASK : Nat :=
  SERIAL_BTN_VISIBLE ||| SERIAL_USB_VISIBLE ||| SERIAL_API_VISIBLE |||
  USE_NUMERIC_KEYPAD ||| FAST_TRIG ||| ALLOW_UPDATE ||| DORMANT ||| LED_INV

def TAB_FIRST : Nat := 0x01
def APPEND_TAB1 : Nat := 0x02
def APPEND_TAB2 : Nat := 0x04
def APPEND_DELAY1 : Nat := 0x08
def APPEND_DELAY2 : Nat := 0x10
def APPEND_CR : Nat := 0x20
def OATH_HOTP : Nat := 0x40
def CHAL_RESP : Nat := 0x40
def TKTFLAG_UPDATE_MASK : Nat :=
  TAB_FIRST ||| APPEND_TAB1 ||| APPEND_TAB2 ||| APPEND_DELAY1 ||| APPEND_DELAY2 ||| APPEND_CR

def SHORT_TICKET : Nat := 0x02
def STATIC_TICKET : Nat := 0x20
def PACING_10MS : Nat := 0x04
def PACING_20MS : Nat := 0x08
def HMAC_LT64 : Nat := 0x04
def CHAL_BTN_TRIG : Nat := 0x08
def CHAL_YUBICO : Nat := 0x20
def CHAL_HMAC : Nat := 0x22
def OATH_HOTP8 : Nat := 0x02
def CFGFLAG_UPDATE_MASK : Nat := PACING_10MS ||| PACING_20MS

def CONFIG1_VALID : Nat := 0x01
def CONFIG2_VALID : Nat := 0x02
def CONFIG1_TOUCH : Nat := 0x04
def CONFIG2_TOUCH : Nat := 0x08

/-- The record validity check `check_crc` of otp.c: the CRC over the
whole 52-byte record equals the verify residue `0xF0B8`. -/
def check_crc (r : List Nat) : Bool :=
  calculate_crc (r.take otp_config_size) == 0xF0B8

/-! ### A stored slot

A slot file holds the 52-byte record followed by the 8-byte counter
area.  `file_put_data`/`file_get_data` belong to the SDK and are not
under `src/`.  Modelled from the spec: the store keeps the record and
the counter area of each slot; a write of only the 52-byte record (as
the update command performs) leaves the counter area untouched, while a
60-byte write replaces both. -/

structure Slot where
  record : List Nat
  ctr : List Nat
deriving DecidableEq, Repr

/-! ### Yubico-OTP emission (`otp_button_pressed`, default branch)

The 22-byte `otpk` buffer: 6 bytes of `fixed_data`, then the 16-byte
plaintext `uid || counter_LE || ts_LE[3] || session || rand[2] ||
~crc_LE`, where the CRC is computed over the 14 bytes starting at
offset 6 and `ts = (board_millis() / 1000) >> 1`. -/

def otp_yubico_otpk (record : List Nat) (counter0 millis session : Nat)
    (rnd : List Nat) : List Nat :=
  let counter := if counter0 = 0 then 1 else counter0
  let ts := millis / 1000 / 2
  let pre := (fixed_data record).take 6 ++ uid record ++ put_uint16_t_le counter ++
    [ts % 256, ts / 256 % 256, ts / 65536 % 256] ++ [session % 256] ++ rnd.take 2
  pre ++ put_uint16_t_le (65535 - calculate_crc (pre.drop 6))

/-- The 16 bytes encrypted by `mbedtls_aes_crypt_ecb`: `otpk + 6`. -/
def otp_yubico_plaintext (record : List Nat) (counter0 millis session : Nat)
    (rnd : List Nat) : List Nat :=
  (otp_yubico_otpk record counter0 millis session rnd).drop 6

/-! ### `otp_button_pressed` dispatch

The branch structure of `otp_button_pressed` for a slot with data.  The
OATH-HOTP branch only initializes `tmp_key[0]` and `tmp_key[2..18]` of
the 18-byte HMAC key; the stack byte `tmp_key[1]` is never written, so
it is a parameter `junk` here. -/

inductive ButtonAction where
  | emptySlot
  | chalResp
  | oath (key : List Nat) (chal : List Nat)
  | staticTicket (out : List Nat)
  | yubico (otpk : List Nat)
deriving DecidableEq, Repr

/-- The 18-byte `tmp_key` of the OATH-HOTP branch: `tmp_key[0] = 0x01`,
`tmp_key[1]` left uninitialized (`junk`), `tmp_key[2..18] = aes_key`. -/
def oath_tmp_key (junk : Nat) (key : List Nat) : List Nat :=
  0x01 :: junk :: key.take 16

/-- The intended OATH-HOTP HMAC key per the spec: `0x01 || 0x00 || aes_key`. -/
def oath_intended_key (key : List Nat) : List Nat :=
  0x01 :: 0x00 :: key.take 16

/-- The 8-byte OATH-HOTP challenge: the big-endian moving factor from the
counter area, seeded from `uid[4..6]` when zero. -/
def oath_chal (s : Slot) : List Nat :=
  let imf0 := (s.ctr.take 8).foldl (fun a b => 256 * a + b % 256) 0
  let imf := if imf0 = 0 then get_uint16_t_be (uid s.record) 4 else imf0
  [imf / 2 ^ 56 % 256, imf / 2 ^ 48 % 256, imf / 2 ^ 40 % 256, imf / 2 ^ 32 % 256,
   imf / 2 ^ 24 % 256, imf / 2 ^ 16 % 256, imf / 2 ^ 8 % 256, imf % 256]

/-- The dispatch of `otp_button_pressed` over the slot's mode flags,
returning what each branch feeds to its primitive. -/
def otp_button_action (slot : Option Slot) (junk millis session : Nat)
    (rnd : List Nat) : ButtonAction :=
  match slot with
  | none => .emptySlot
  | some s =>
    if cfg_flags s.record &&& CHAL_YUBICO ≠ 0 ∧ tkt_flags s.record &&& CHAL_RESP ≠ 0 then
      .chalResp
    else if tkt_flags s.record &&& OATH_HOTP ≠ 0 then
      .oath (oath_tmp_key junk (aes_key s.record)) (oath_chal s)
    else if cfg_flags s.record &&& SHORT_TICKET ≠ 0 ∨ cfg_flags s.record &&& STATIC_TICKET ≠ 0 then
      .staticTicket (s.record.take (FIXED_SIZE + UID_SIZE + KEY_SIZE))
    else
      .yubico (otp_yubico_otpk s.record (get_uint16_t_be s.ctr 0) millis session rnd)

/-! ### Device state and external collaborators -/

/-- The OTP applet's mutable state: the two slot files and the globals
`config_seq` and `status_byte` of otp.c. -/
structure DevState where
  slot1 : Option Slot
  slot2 : Option Slot
  config_seq : Nat
  status_byte : Nat
deriving DecidableEq, Repr

/-- External collaborators of `cmd_otp` (out of scope per the spec):
firmware version numbers, the outcome of `wait_button` (`true` means the
user aborted), the HMAC-SHA1 and AES-ECB primitives, the serial number,
and the management-config TLV built by `man_get_config`. -/
structure Ext where
  major : Nat
  minor : Nat
  btnAborted : Bool
  hmac_sha1 : List Nat → List Nat → List Nat
  aes_ecb_enc : List Nat → List Nat → List Nat
  serial_str : List Nat
  serial_id : List Nat
  man_config : List Nat

/-- Store/flash events, in program order: `file_put_data`, `delete_file`
and `low_flash_available` calls made by a command. -/
inductive Ev where
  | put (slot : Nat)
  | del (slot : Nat)
  | flush
deriving DecidableEq, Repr

/-- Result of one APDU command: status word, response size
(`res_APDU_size` as left for the transport), response bytes, new device
state and the store/flash event trace. -/
structure CmdResult where
  sw : Nat
  resSize : Nat
  resBody : List Nat
  st : DevState
  evs : List Ev
deriving DecidableEq, Repr

def SW_OK : Nat := 0x9000
def SW_WRONG_DATA : Nat := 0x6A80
def SW_SECURITY_STATUS_NOT_SATISFIED : Nat := 0x6982
def SW_CONDITIONS_NOT_SATISFIED : Nat := 0x6985
def SW_INCORRECT_P1P2 : Nat := 0x6A86
def SW_INS_NOT_SUPPORTED : Nat := 0x6D00
def SW_CLA_NOT_SUPPORTED : Nat := 0x6E00

/-! ### The status block (`otp_status`, otp.c lines 340-381) -/

/-- The `opts` byte: `CONFIG1_VALID`/`CONFIG2_VALID` for slots with
data, `CONFIG1_TOUCH`/`CONFIG2_TOUCH` when the slot is not
challenge-response or requires a button press. -/
def otp_status_opts (st : DevState) : Nat :=
  let o1 := match st.slot1 with
    | some s =>
      CONFIG1_VALID |||
        (if tkt_flags s.record &&& CHAL_RESP = 0 ∨ cfg_flags s.record &&& CHAL_BTN_TRIG ≠ 0
         then CONFIG1_TOUCH else 0)
    | none => 0
  let o2 := match st.slot2 with
    | some s =>
      CONFIG2_VALID |||
        (if tkt_flags s.record &&& CHAL_RESP = 0 ∨ cfg_flags s.record &&& CHAL_BTN_TRIG ≠ 0
         then CONFIG2_TOUCH else 0)
    | none => 0
  o1 ||| o2

/-- The seven bytes `otp_status` writes:
`major, minor, 0, config_seq, opts, 0, status_byte`. -/
def otp_status_bytes (major minor : Nat) (st : DevState) : List Nat :=
  [major % 256, minor % 256, 0, st.config_seq % 256, otp_status_opts st, 0,
   st.status_byte % 256]

/-- Overwrite `v.length` bytes of `l` starting at `off` (a `memcpy` into
a larger buffer). -/
def writeAt (l : List Nat) (off : Nat) (v : List Nat) : List Nat :=
  l.take off ++ v ++ l.drop (off + v.length)

/-- The buffer effect and final `res_APDU_size` of `otp_status`: with
`is_otp` the seven bytes are placed at offsets 1..7 (offset 0 is
skipped) and `res_APDU_size` is reset to 0; otherwise they are placed
at offsets 0..6 and `res_APDU_size` ends at 7. -/
def otp_status_fill (is_otp : Bool) (major minor : Nat) (st : DevState)
    (buf : List Nat) : List Nat × Nat :=
  (writeAt buf (if is_otp then 1 else 0) (otp_status_bytes major minor st),
   if is_otp then 0 else 7)

/-- A `CmdResult` for the paths of `cmd_otp` that end in
`return otp_status(_is_otp);`. -/
def status_result (ext : Ext) (is_otp : Bool) (st : DevState) (evs : List Ev) : CmdResult :=
  ⟨SW_OK, if is_otp then 0 else 7, otp_status_bytes ext.major ext.minor st, st, evs⟩

def errResult (sw : Nat) (st : DevState) : CmdResult :=
  ⟨sw, 0, [], st, []⟩

/-! ### The HMAC challenge-length loop (otp.c lines 514-519) -/

/-- The loop `while (chal_len > 0 && apdu.data[63] == apdu.data[chal_len-1])
chal_len--;`, by recursion on `chal_len`. -/
def hmac_chal_len_go (d : List Nat) : Nat → Nat
  | 0 => 0
  | n + 1 => if d.getD 63 0 = d.getD n 0 then hmac_chal_len_go d n else n + 1

def hmac_chal_len (d : List Nat) : Nat := hmac_chal_len_go d 64

/-! ### `cmd_otp` (otp.c lines 389-547) -/

def cmd_otp (ext : Ext) (is_otp : Bool) (st : DevState) (p1 p2 : Nat)
    (d : List Nat) : CmdResult :=
  if p2 ≠ 0 then errResult SW_INCORRECT_P1P2 st
  else if p1 = 0x01 ∨ p1 = 0x03 then
    -- Configure slot
    let one := p1 = 0x01
    let sl := if one then st.slot1 else st.slot2
    let accOk : Bool := match sl with
      | some s => acc_code s.record == (d.drop otp_config_size).take ACC_CODE_SIZE
      | none => true
    if accOk = false then errResult SW_SECURITY_STATUS_NOT_SATISFIED st
    else if (d.take otp_config_size).any (· ≠ 0) then
      if rfu0 d ≠ 0 ∨ rfu1 d ≠ 0 ∨ check_crc d = false then errResult SW_WRONG_DATA st
      else
        let s' : Slot := ⟨d.take otp_config_size, List.replicate 8 0⟩
        let st' : DevState :=
          { st with slot1 := if one then some s' else st.slot1,
                    slot2 := if one then st.slot2 else some s',
                    config_seq := (st.config_seq + 1) % 256 }
        status_result ext is_otp st' [.put (if one then 1 else 2), .flush]
    else
      -- Delete slot
      let st' : DevState :=
        { st with slot1 := if one then none else st.slot1,
                  slot2 := if one then st.slot2 else none,
                  config_seq := (st.config_seq + 1) % 256 }
      status_result ext is_otp st' [.del (if one then 1 else 2)]
  else if p1 = 0x04 ∨ p1 = 0x05 then
    -- Update slot
    if rfu0 d ≠ 0 ∨ rfu1 d ≠ 0 ∨ check_crc d = false then errResult SW_WRONG_DATA st
    else
      let one := p1 = 0x04
      let sl := if one then st.slot1 else st.slot2
      match sl with
      | none => status_result ext is_otp st []
      | some s =>
        if acc_code s.record ≠ (d.drop otp_config_size).take ACC_CODE_SIZE then
          errResult SW_SECURITY_STATUS_NOT_SATISFIED st
        else
          -- The 52 bytes written by file_put_data after
          -- `memcpy(apdu.data, stored, 38)` and the four field
          -- assignments at offsets 44..47: stored fixed_data|uid|aes_key,
          -- candidate acc_code, stored fixed_size, merged ext/tkt flags,
          -- merged-or-preserved cfg_flags, candidate rfu and crc.
          let merged := s.record.take (FIXED_SIZE + UID_SIZE + KEY_SIZE) ++
            ((d.drop (FIXED_SIZE + UID_SIZE + KEY_SIZE)).take ACC_CODE_SIZE ++
              ([fixed_size s.record,
                (ext_flags s.record &&& (255 ^^^ EXTFLAG_UPDATE_MASK)) |||
                  (ext_flags d &&& EXTFLAG_UPDATE_MASK),
                (tkt_flags s.record &&& (255 ^^^ TKTFLAG_UPDATE_MASK)) |||
                  (tkt_flags d &&& TKTFLAG_UPDATE_MASK),
                if tkt_flags s.record &&& CHAL_RESP = 0 then
                  (cfg_flags s.record &&& (255 ^^^ CFGFLAG_UPDATE_MASK)) |||
                    (cfg_flags d &&& CFGFLAG_UPDATE_MASK)
                else cfg_flags s.record] ++
                (d.drop 48).take 4))
          let s' : Slot := ⟨merged, s.ctr⟩
          let st' : DevState :=
            { st with slot1 := if one then some s' else st.slot1,
                      slot2 := if one then st.slot2 else some s',
                      config_seq := (st.config_seq + 1) % 256 }
          status_result ext is_otp st' [.put (if one then 1 else 2), .flush]
  else if p1 = 0x06 then
    -- Swap slots
    let st' : DevState :=
      { st with slot1 := st.slot2, slot2 := st.slot1,
                config_seq := (st.config_seq + 1) % 256 }
    let evs :=
      (match st.slot2 with | some _ => [Ev.put 1] | none => [Ev.del 1]) ++
      (match st.slot1 with | some _ => [Ev.put 2] | none => [Ev.del 2]) ++ [Ev.flush]
    status_result ext is_otp st' evs
  else if p1 = 0x10 then
    -- Serial: 4 bytes, top 6 bits of byte 0 cleared
    ⟨SW_OK, 4, (ext.serial_id.getD 0 0 &&& 0x03) :: (ext.serial_id.drop 1).take 3, st, []⟩
  else if p1 = 0x13 then
    ⟨SW_OK, ext.man_config.length, ext.man_config, st, []⟩
  else if p1 = 0x30 ∨ p1 = 0x38 ∨ p1 = 0x20 ∨ p1 = 0x28 then
    -- Calculate OTP (challenge-response)
    let sl := if p1 = 0x30 ∨ p1 = 0x20 then st.slot1 else st.slot2
    match sl with
    | none => ⟨SW_OK, 0, [], st, []⟩
    | some s =>
      if tkt_flags s.record &&& CHAL_RESP = 0 then errResult SW_WRONG_DATA st
      else if cfg_flags s.record &&& CHAL_BTN_TRIG ≠ 0 ∧ ext.btnAborted then
        let st' : DevState := { st with status_byte := 0 }
        ⟨SW_CONDITIONS_NOT_SATISFIED, if is_otp then 0 else 7,
          otp_status_bytes ext.major ext.minor st', st', []⟩
      else
        let st1 : DevState :=
          if cfg_flags s.record &&& CHAL_BTN_TRIG ≠ 0 then { st with status_byte := 0x10 }
          else st
        if p1 = 0x30 ∨ p1 = 0x38 then
          if cfg_flags s.record &&& CHAL_HMAC = 0 then errResult SW_WRONG_DATA st1
          else
            let key := aes_key s.record ++ uid s.record
            let chal_len := if cfg_flags s.record &&& HMAC_LT64 ≠ 0 then hmac_chal_len d else 64
            ⟨SW_OK, 20, ext.hmac_sha1 key (d.take chal_len),
              { st1 with status_byte := 0 }, []⟩
        else
          if cfg_flags s.record &&& CHAL_YUBICO = 0 then errResult SW_WRONG_DATA st1
          else
            let challenge := d.take 6 ++ ext.serial_str.take 10
            ⟨SW_OK, 16, ext.aes_ecb_enc (aes_key s.record) challenge,
              { st1 with status_byte := 0 }, []⟩
  else ⟨SW_OK, 0, [], st, []⟩

/-- `otp_select` (otp.c lines 131-147): `config_seq` becomes 1 when any
slot has data and 0 otherwise. -/
def otp_select (st : DevState) : DevState :=
  { st with config_seq := if st.slot1.isSome ∨ st.slot2.isSome then 1 else 0 }

/-- `otp_process_apdu` (otp.c lines 556-569). -/
def otp_process_apdu (ext : Ext) (is_otp : Bool) (st : DevState)
    (cla ins p1 p2 : Nat) (d : List Nat) : CmdResult :=
  if cla ≠ 0 then errResult SW_CLA_NOT_SUPPORTED st
  else if ins = 0x01 then cmd_otp ext is_otp st p1 p2 d
  else errResult SW_INS_NOT_SUPPORTED st

/-! ### HID frame adapter (otp.c lines 571-675) -/

/-- HID-layer state: the device state plus the 70-byte rx frame, the tx
frame with its send-buffer size, and the sequence counters. -/
structure HidState where
  dev : DevState
  rx : List Nat
  txFrame : List Nat
  txLen : Nat
  currSeq : Nat
  expSeq : Nat
deriving DecidableEq, Repr

/-- `otp_send_frame`: append the inverted CRC (little-endian), set the
send-buffer size and the expected sequence count `ceil(len / 7)`. -/
def otp_send_frame (body : List Nat) (hs : HidState) : HidState :=
  let full := body ++ put_uint16_t_le (65535 - calculate_crc body)
  { hs with txFrame := full, txLen := full.length,
            expSeq := full.length / 7 + (if full.length % 7 ≠ 0 then 1 else 0),
            currSeq := 0 }

structure HidSetResult where
  st : HidState
  dispatched : Bool
deriving DecidableEq, Repr

/-- `otp_hid_set_report_cb` for a feature report (`report_type == 3`):
reset on `0xFF`, else reassemble the 70-byte frame from fragments; on
sequence 9 validate the CRC and dispatch the synthesized APDU
(CLA 0, INS 0x01, P1 = slot id, P2 = 0, 64 data bytes), arming a reply
only when the status word is `0x9000` and the response is non-empty. -/
def otp_hid_set_report (ext : Ext) (hs : HidState) (buf : List Nat) : HidSetResult :=
  let b7 := buf.getD 7 0
  if b7 = 0xFF then
    ⟨{ hs with txLen := 0, currSeq := 0, expSeq := 0, txFrame := List.replicate 70 0 },
      false⟩
  else if b7 &&& 0x80 ≠ 0 then
    let rseq := b7 &&& 0x1F
    if rseq < 10 then
      let base := if rseq = 0 then List.replicate 70 0 else hs.rx
      let rx' := writeAt base (rseq * 7) (buf.take 7)
      if rseq = 9 then
        if calculate_crc (rx'.take 64) = get_uint16_t_le rx' 65 then
          let slot_id := rx'.getD 64 0
          let r := otp_process_apdu ext true hs.dev 0 0x01 slot_id 0 (rx'.take 64)
          let hs1 : HidState := { hs with rx := rx', dev := r.st }
          if r.sw = SW_OK ∧ r.resSize > 0 then ⟨otp_send_frame r.resBody hs1, true⟩
          else ⟨hs1, true⟩
        else ⟨{ hs with rx := rx' }, false⟩
      else ⟨{ hs with rx := rx' }, false⟩
    else ⟨hs, false⟩
  else ⟨hs, false⟩

inductive HidReport where
  | fragment (bytes : List Nat)
  | sentinel (bytes : List Nat)
  | status (bytes : List Nat)
deriving DecidableEq, Repr

/-- `otp_hid_get_report_cb`: emit the next 8-byte report.  `prev` is the
host-side report buffer before the call (its byte 0 is left untouched by
the status branch). -/
def otp_hid_get_report (ext : Ext) (hs : HidState) (prev : List Nat) :
    HidReport × HidState :=
  if hs.txLen > 0 then
    let seq := hs.currSeq
    let chunk := (hs.txFrame.drop (7 * seq)).take (min 7 hs.txLen)
    let padded := chunk ++ List.replicate (7 - chunk.length) 0 ++ [0x40 ||| seq]
    (.fragment padded,
     { hs with currSeq := seq + 1, txLen := hs.txLen - min 7 hs.txLen })
  else if hs.currSeq = hs.expSeq ∧ hs.expSeq > 0 then
    (.sentinel (List.replicate 7 0 ++ [0x40]), { hs with currSeq := 0, expSeq := 0 })
  else
    (.status (otp_status_fill true ext.major ext.minor hs.dev prev).1, hs)

/-! ### Claim C1: Yubico-OTP plaintext layout and CRC residue -/

/-- C1: on a Yubico-OTP button press (slot configured with neither
OATH-HOTP nor static-ticket flags), the emission is the Yubico branch,
the 16-byte AES plaintext is
`uid || counter_LE || ts_LE[3] || session || rand[2] || ~crc_LE` with
the CRC taken over the first 14 bytes, and the CRC over all 16 plaintext
bytes is the residue `0xF0B8`. -/
theorem C1_yubico_plaintext (s : Slot) (junk millis session : Nat) (rnd : List Nat)
    (hrec : s.record.length = 52) (hrnd : rnd.length = 2)
    (hoath : tkt_flags s.record &&& OATH_HOTP = 0)
    (hshort : cfg_flags s.record &&& SHORT_TICKET = 0)
    (hstatic : cfg_flags s.record &&& STATIC_TICKET = 0) :
    otp_button_action (some s) junk millis session rnd =
      .yubico (otp_yubico_otpk s.record (get_uint16_t_be s.ctr 0) millis session rnd) ∧
    otp_yubico_plaintext s.record (get_uint16_t_be s.ctr 0) millis session rnd =
      uid s.record ++
        put_uint16_t_le
          (if get_uint16_t_be s.ctr 0 = 0 then 1 else get_uint16_t_be s.ctr 0) ++
        [millis / 1000 / 2 % 256, millis / 1000 / 2 / 256 % 256,
         millis / 1000 / 2 / 65536 % 256] ++ [session % 256] ++ rnd ++
        put_uint16_t_le (65535 - calculate_crc
          (uid s.record ++
            put_uint16_t_le
              (if get_uint16_t_be s.ctr 0 = 0 then 1 else get_uint16_t_be s.ctr 0) ++
            [millis / 1000 / 2 % 256, millis / 1000 / 2 / 256 % 256,
             millis / 1000 / 2 / 65536 % 256] ++ [session % 256] ++ rnd)) ∧
    calculate_crc
      (otp_yubico_plaintext s.record (get_uint16_t_be s.ctr 0) millis session rnd) =
      0xF0B8 := by
  have hchal : ¬(cfg_flags s.record &&& CHAL_YUBICO ≠ 0 ∧
      tkt_flags s.record &&& CHAL_RESP ≠ 0) := by
    have h0 : cfg_flags s.record &&& CHAL_YUBICO = 0 := by
      simpa [CHAL_YUBICO, STATIC_TICKET] using hstatic
    simp [h0]
  have hoath' : ¬tkt_flags s.record &&& OATH_HOTP ≠ 0 := by simp [hoath]
  have hst : ¬(cfg_flags s.record &&& SHORT_TICKET ≠ 0 ∨
      cfg_flags s.record &&& STATIC_TICKET ≠ 0) := by simp [hshort, hstatic]
  have hfix : ((fixed_data s.record).take 6).length = 6 := by
    simp [fixed_data, List.length_take, hrec]
  have hdrop : ∀ l : List Nat,
      (((fixed_data s.record).take 6) ++ l).drop 6 = l := by
    intro l
    have h := List.drop_left ((fixed_data s.record).take 6) l
    rwa [hfix] at h
  have hplain : otp_yubico_plaintext s.record (get_uint16_t_be s.ctr 0) millis session rnd =
      uid s.record ++
        put_uint16_t_le
          (if get_uint16_t_be s.ctr 0 = 0 then 1 else get_uint16_t_be s.ctr 0) ++
        [millis / 1000 / 2 % 256, millis / 1000 / 2 / 256 % 256,
         millis / 1000 / 2 / 65536 % 256] ++ [session % 256] ++ rnd ++
        put_uint16_t_le (65535 - calculate_crc
          (uid s.record ++
            put_uint16_t_le
              (if get_uint16_t_be s.ctr 0 = 0 then 1 else get_uint16_t_be s.ctr 0) ++
            [millis / 1000 / 2 % 256, millis / 1000 / 2 / 256 % 256,
             millis / 1000 / 2 / 65536 % 256] ++ [session % 256] ++ rnd)) := by
    have hr2 : rnd.take 2 = rnd := by
      rw [← hrnd]
      exact List.take_length rnd
    simp only [otp_yubico_plaintext, otp_yubico_otpk, hr2, List.append_assoc]
    rw [hdrop, hdrop]
  exact ⟨by simp [otp_button_action, hchal, hoath', hst], hplain, by
    rw [hplain]
    have := calculate_crc_append_residue
      (uid s.record ++
        put_uint16_t_le
          (if get_uint16_t_be s.ctr 0 = 0 then 1 else get_uint16_t_be s.ctr 0) ++
        [millis / 1000 / 2 % 256, millis / 1000 / 2 / 256 % 256,
         millis / 1000 / 2 / 65536 % 256] ++ [session % 256] ++ rnd)
    simpa [List.append_assoc] using this⟩

/-- Witness instance of C1 at a concrete slot and inputs. -/
theorem C1_yubico_plaintext_witness :
    calculate_crc (otp_yubico_plaintext (List.replicate 52 1)
      (get_uint16_t_be (List.replicate 8 0) 0) 123456 5 [7, 9]) = 0xF0B8 :=
  (C1_yubico_plaintext ⟨List.replicate 52 1, List.replicate 8 0⟩ 0 123456 5 [7, 9]
    (by decide) (by decide) (by decide) (by decide) (by decide)).2.2

/-! ### Claim C7: the OATH-HOTP HMAC key -/

/-- A concrete OATH-HOTP slot: `tkt_flags = 0x40`, `cfg_flags = 0`,
`aes_key` all 9s, counter area zero. -/
def oathDemoSlot : Slot :=
  ⟨List.replicate 22 0 ++ List.replicate 16 9 ++
    [0, 0, 0, 0, 0, 0, 0, 0, 0x40, 0, 0, 0, 0, 0], List.replicate 8 0⟩

/-- C7: the OATH-HOTP branch builds its 18-byte HMAC key with byte 1
left uninitialized: whatever stack byte (`0x37` here) happens to be
there ends up in the key, so the key is `0x01 || junk || aes_key` and
differs from the intended `0x01 || 0x00 || aes_key` whenever the stack
byte is non-zero. -/
theorem C7_oath_key_uninitialized :
    otp_button_action (some oathDemoSlot) 0x37 0 0 [] =
      .oath (oath_tmp_key 0x37 (List.replicate 16 9)) (oath_chal oathDemoSlot) ∧
    oath_tmp_key 0x37 (List.replicate 16 9) = 0x01 :: 0x37 :: List.replicate 16 9 ∧
    oath_tmp_key 0x37 (List.replicate 16 9) ≠
      oath_intended_key (List.replicate 16 9) := by
  decide

/-- A concrete external-collaborator bundle for instance evaluations. -/
def extDemo : Ext :=
  { major := 5, minor := 7, btnAborted := false,
    hmac_sha1 := fun k c => k ++ c,
    aes_ecb_enc := fun k c => k ++ c,
    serial_str := [48, 49, 50, 51, 52, 53, 54, 55, 56, 57],
    serial_id := [0xAB, 1, 2, 3],
    man_config := [] }

/-! ### Claim C3: challenge-response error statuses -/

/-- C3 (amended): for a challenge-response command, a slot **with data**
whose `tkt_flags` lack `CHAL_RESP` gets `SW_WRONG_DATA`, as does an
HMAC command when `cfg_flags & CHAL_HMAC == 0` and a Yubico command
when `cfg_flags & CHAL_YUBICO == 0`, provided the command is not
aborted at the `CHAL_BTN_TRIG` button wait; an aborted button wait
returns `SW_CONDITIONS_NOT_SATISFIED` (0x6985) and clears
`status_byte` before any mode-flag check; and a slot with **no data**
falls through to `SW_OK` with an empty body (the claim's
`SW_WRONG_DATA` does not hold in either of the last two cases). -/
theorem C3_chal_resp_status (ext : Ext) (is_otp : Bool) (st : DevState) (p1 : Nat)
    (d : List Nat) (hp1 : p1 = 0x20 ∨ p1 = 0x28 ∨ p1 = 0x30 ∨ p1 = 0x38) :
    ((if p1 = 0x30 ∨ p1 = 0x20 then st.slot1 else st.slot2) = none →
      (cmd_otp ext is_otp st p1 0 d).sw = SW_OK ∧
      (cmd_otp ext is_otp st p1 0 d).resSize = 0 ∧
      (cmd_otp ext is_otp st p1 0 d).resBody = []) ∧
    (∀ s, (if p1 = 0x30 ∨ p1 = 0x20 then st.slot1 else st.slot2) = some s →
      (tkt_flags s.record &&& CHAL_RESP = 0 →
        (cmd_otp ext is_otp st p1 0 d).sw = SW_WRONG_DATA) ∧
      (tkt_flags s.record &&& CHAL_RESP ≠ 0 →
        (cfg_flags s.record &&& CHAL_BTN_TRIG = 0 ∨ ext.btnAborted = false) →
        (((p1 = 0x30 ∨ p1 = 0x38) → cfg_flags s.record &&& CHAL_HMAC = 0 →
            (cmd_otp ext is_otp st p1 0 d).sw = SW_WRONG_DATA) ∧
         ((p1 = 0x20 ∨ p1 = 0x28) → cfg_flags s.record &&& CHAL_YUBICO = 0 →
            (cmd_otp ext is_otp st p1 0 d).sw = SW_WRONG_DATA))) ∧
      (tkt_flags s.record &&& CHAL_RESP ≠ 0 →
        cfg_flags s.record &&& CHAL_BTN_TRIG ≠ 0 → ext.btnAborted = true →
        (cmd_otp ext is_otp st p1 0 d).sw = SW_CONDITIONS_NOT_SATISFIED ∧
        (cmd_otp ext is_otp st p1 0 d).st.status_byte = 0)) := by
  have hbtncase : ∀ (s : Slot),
      (cfg_flags s.record &&& CHAL_BTN_TRIG = 0 ∨ ext.btnAborted = false) →
      ¬(cfg_flags s.record &&& CHAL_BTN_TRIG ≠ 0 ∧ ext.btnAborted = true) := by
    intro s hbtn
    rcases hbtn with hb | hb
    · simp [hb]
    · simp [hb]
  rcases hp1 with h | h | h | h <;> subst h
  · -- p1 = 0x20 (Yubico, slot 1)
    refine ⟨fun hnone => ?_, fun s hs => ⟨fun htkt => ?_,
      fun htkt hbtn => ⟨fun hm _ => absurd hm (by norm_num), fun _ hy => ?_⟩,
      fun htkt hbt hab => ?_⟩⟩
    · simp at hnone
      simp [cmd_otp, hnone]
    · simp at hs
      simp [cmd_otp, hs, htkt, errResult]
    · simp at hs
      simp [cmd_otp, hs, htkt, hy, hbtncase s hbtn, errResult]
    · simp at hs
      simp [cmd_otp, hs, htkt, hbt, hab]
  · -- p1 = 0x28 (Yubico, slot 2)
    refine ⟨fun hnone => ?_, fun s hs => ⟨fun htkt => ?_,
      fun htkt hbtn => ⟨fun hm _ => absurd hm (by norm_num), fun _ hy => ?_⟩,
      fun htkt hbt hab => ?_⟩⟩
    · simp at hnone
      simp [cmd_otp, hnone]
    · simp at hs
      simp [cmd_otp, hs, htkt, errResult]
    · simp at hs
      simp [cmd_otp, hs, htkt, hy, hbtncase s hbtn, errResult]
    · simp at hs
      simp [cmd_otp, hs, htkt, hbt, hab]
  · -- p1 = 0x30 (HMAC, slot 1)
    refine ⟨fun hnone => ?_, fun s hs => ⟨fun htkt => ?_,
      fun htkt hbtn => ⟨fun _ hm => ?_, fun hy _ => absurd hy (by norm_num)⟩,
      fun htkt hbt hab => ?_⟩⟩
    · simp at hnone
      simp [cmd_otp, hnone]
    · simp at hs
      simp [cmd_otp, hs, htkt, errResult]
    · simp at hs
      simp [cmd_otp, hs, htkt, hm, hbtncase s hbtn, errResult]
    · simp at hs
      simp [cmd_otp, hs, htkt, hbt, hab]
  · -- p1 = 0x38 (HMAC, slot 2)
    refine ⟨fun hnone => ?_, fun s hs => ⟨fun htkt => ?_,
      fun htkt hbtn => ⟨fun _ hm => ?_, fun hy _ => absurd hy (by norm_num)⟩,
      fun htkt hbt hab => ?_⟩⟩
    · simp at hnone
      simp [cmd_otp, hnone]
    · simp at hs
      simp [cmd_otp, hs, htkt, errResult]
    · simp at hs
      simp [cmd_otp, hs, htkt, hm, hbtncase s hbtn, errResult]
    · simp at hs
      simp [cmd_otp, hs, htkt, hbt, hab]

/-- The external bundle with the button wait reporting an abort. -/
def extAbort : Ext := { extDemo with btnAborted := true }

/-- A slot with `CHAL_RESP` set, `CHAL_BTN_TRIG` set and the
`CHAL_HMAC` bits clear. -/
def btnSlot : Slot :=
  ⟨List.replicate 46 0 ++ [0x40, 0x08] ++ [0, 0, 0, 0], List.replicate 8 0⟩

/-- Counterexample to C3 as stated, at two concrete inputs: a
challenge-response command on a slot with no stored data returns
`SW_OK` (0x9000), not `SW_WRONG_DATA`; and an HMAC command on a slot
whose `cfg_flags` lack `CHAL_HMAC` but have `CHAL_BTN_TRIG`, with the
button wait aborted, returns `SW_CONDITIONS_NOT_SATISFIED` (0x6985),
not `SW_WRONG_DATA`. -/
theorem C3_original_claim_cex :
    (cmd_otp extDemo false ⟨none, none, 0, 0⟩ 0x30 0 (List.replicate 64 0)).sw = SW_OK ∧
    (cmd_otp extDemo false ⟨none, none, 0, 0⟩ 0x30 0 (List.replicate 64 0)).sw ≠
      SW_WRONG_DATA ∧
    (cmd_otp extAbort false ⟨some btnSlot, none, 0, 0⟩ 0x30 0
      (List.replicate 64 0)).sw = SW_CONDITIONS_NOT_SATISFIED ∧
    (cmd_otp extAbort false ⟨some btnSlot, none, 0, 0⟩ 0x30 0
      (List.replicate 64 0)).sw ≠ SW_WRONG_DATA := by
  decide

/-- A slot whose record has every byte 1: `tkt_flags = 1`, so
`CHAL_RESP` is clear. -/
def noChalSlot : Slot := ⟨List.replicate 52 1, List.replicate 8 0⟩

/-- Witness instance of C3 (amended): an HMAC command on a slot with
data but without `CHAL_RESP` returns `SW_WRONG_DATA`. -/
theorem C3_chal_resp_status_witness :
    (cmd_otp extDemo false ⟨some noChalSlot, none, 0, 0⟩ 0x30 0
      (List.replicate 64 0)).sw = SW_WRONG_DATA :=
  ((C3_chal_resp_status extDemo false ⟨some noChalSlot, none, 0, 0⟩ 0x30
      (List.replicate 64 0) (by norm_num)).2 noChalSlot (by decide)).1 (by decide)

/-! ### Claim C2: HMAC-SHA1 challenge/response -/

/-- Characterization of the trimming loop: its result `L` is at most
`n`, every byte from `L` up to `n` equals the terminator `d[63]`, and
either `L = 0` or the byte just before `L` differs from the terminator
(so exactly the maximal trailing run of terminator bytes is removed). -/
theorem hmac_chal_len_go_spec (d : List Nat) :
    ∀ n, hmac_chal_len_go d n ≤ n ∧
      (∀ i, hmac_chal_len_go d n ≤ i → i < n → d.getD i 0 = d.getD 63 0) ∧
      (hmac_chal_len_go d n = 0 ∨
        d.getD (hmac_chal_len_go d n - 1) 0 ≠ d.getD 63 0) := by
  intro n
  induction n with
  | zero => exact ⟨Nat.le_refl 0, fun i h1 h2 => absurd h2 (by omega), Or.inl rfl⟩
  | succ n ih =>
    by_cases h : d.getD 63 0 = d.getD n 0
    · have heq : hmac_chal_len_go d (n + 1) = hmac_chal_len_go d n := by
        rw [hmac_chal_len_go, if_pos h]
      refine ⟨?_, ?_, ?_⟩
      · rw [heq]
        exact Nat.le_succ_of_le ih.1
      · intro i h1 h2
        rw [heq] at h1
        rcases Nat.lt_or_ge i n with hi | hi
        · exact ih.2.1 i h1 hi
        · have hin : i = n := by omega
          rw [hin]
          exact h.symm
      · rw [heq]
        exact ih.2.2
    · have heq : hmac_chal_len_go d (n + 1) = n + 1 := by
        rw [hmac_chal_len_go, if_neg h]
      refine ⟨le_of_eq heq, ?_, ?_⟩
      · intro i h1 h2
        rw [heq] at h1
        omega
      · rw [heq]
        refine Or.inr ?_
        simp only [Nat.add_sub_cancel]
        exact fun hc => h hc.symm

/-- C2: an HMAC command (P1 0x30/0x38) on a slot with data, `CHAL_RESP`
and `CHAL_HMAC` set returns the HMAC of the challenge under the 22-byte
key `aes_key || uid` with a 20-byte response size; the challenge is the
first 64 bytes, trimmed — when `HMAC_LT64` is set — by exactly the
maximal trailing run of bytes equal to `d[63]` (possibly trimming
everything). -/
theorem C2_hmac_response (ext : Ext) (is_otp : Bool) (st : DevState) (p1 : Nat)
    (d : List Nat) (s : Slot)
    (hp1 : p1 = 0x30 ∨ p1 = 0x38)
    (hsl : (if p1 = 0x30 then st.slot1 else st.slot2) = some s)
    (hrec : s.record.length = 52)
    (htkt : tkt_flags s.record &&& CHAL_RESP ≠ 0)
    (hhmac : cfg_flags s.record &&& CHAL_HMAC ≠ 0)
    (hbtn : cfg_flags s.record &&& CHAL_BTN_TRIG = 0 ∨ ext.btnAborted = false) :
    (cmd_otp ext is_otp st p1 0 d).sw = SW_OK ∧
    (cmd_otp ext is_otp st p1 0 d).resSize = 20 ∧
    (cmd_otp ext is_otp st p1 0 d).resBody =
      ext.hmac_sha1 (aes_key s.record ++ uid s.record)
        (d.take (if cfg_flags s.record &&& HMAC_LT64 ≠ 0 then hmac_chal_len d else 64)) ∧
    (aes_key s.record ++ uid s.record).length = 22 ∧
    (cfg_flags s.record &&& HMAC_LT64 = 0 →
      (if cfg_flags s.record &&& HMAC_LT64 ≠ 0 then hmac_chal_len d else 64) = 64) ∧
    (cfg_flags s.record &&& HMAC_LT64 ≠ 0 →
      hmac_chal_len d ≤ 64 ∧
      (∀ i, hmac_chal_len d ≤ i → i < 64 → d.getD i 0 = d.getD 63 0) ∧
      (hmac_chal_len d = 0 ∨ d.getD (hmac_chal_len d - 1) 0 ≠ d.getD 63 0)) := by
  have hbtncase :
      ¬(cfg_flags s.record &&& CHAL_BTN_TRIG ≠ 0 ∧ ext.btnAborted = true) := by
    rcases hbtn with hb | hb
    · simp [hb]
    · simp [hb]
  have hklen : (aes_key s.record ++ uid s.record).length = 22 := by
    simp [aes_key, uid, hrec]
  have htrim : cfg_flags s.record &&& HMAC_LT64 ≠ 0 →
      hmac_chal_len d ≤ 64 ∧
      (∀ i, hmac_chal_len d ≤ i → i < 64 → d.getD i 0 = d.getD 63 0) ∧
      (hmac_chal_len d = 0 ∨ d.getD (hmac_chal_len d - 1) 0 ≠ d.getD 63 0) :=
    fun _ => hmac_chal_len_go_spec d 64
  rcases hp1 with h | h <;> subst h
  · simp only [show ((0x30 : Nat) = 0x30) = True from by norm_num, if_true] at hsl
    refine ⟨?_, ?_, ?_, hklen, fun hlt => by simp [hlt], htrim⟩ <;>
      simp [cmd_otp, hsl, htkt, hhmac, hbtncase]
  · simp only [show ((0x38 : Nat) = 0x30) = False from by norm_num, if_false] at hsl
    refine ⟨?_, ?_, ?_, hklen, fun hlt => by simp [hlt], htrim⟩ <;>
      simp [cmd_otp, hsl, htkt, hhmac, hbtncase]

/-- A concrete HMAC challenge-response slot: `tkt_flags = 0x40`
(`CHAL_RESP`), `cfg_flags = 0x22` (`CHAL_HMAC`, no button, no
`HMAC_LT64`). -/
def hmacSlot : Slot :=
  ⟨List.replicate 46 0 ++ [0x40, 0x22] ++ [0, 0, 0, 0], List.replicate 8 0⟩

/-- Witness instance of C2 at a concrete slot and challenge. -/
theorem C2_hmac_response_witness :
    (cmd_otp extDemo false ⟨some hmacSlot, none, 0, 0⟩ 0x30 0
      (List.replicate 64 3)).resSize = 20 ∧
    (cmd_otp extDemo false ⟨some hmacSlot, none, 0, 0⟩ 0x30 0
      (List.replicate 64 3)).resBody =
      extDemo.hmac_sha1 (aes_key hmacSlot.record ++ uid hmacSlot.record)
        ((List.replicate 64 3).take
          (if cfg_flags hmacSlot.record &&& HMAC_LT64 ≠ 0 then
            hmac_chal_len (List.replicate 64 3) else 64)) := by
  have h := C2_hmac_response extDemo false ⟨some hmacSlot, none, 0, 0⟩ 0x30
    (List.replicate 64 3) hmacSlot (Or.inl rfl) (by decide) (by decide)
    (by decide) (by decide) (Or.inl (by decide))
  exact ⟨h.2.1, h.2.2.1⟩

/-! ### Claim C4: update preserves the immutable fields -/

theorem take_append_of_le (n : Nat) (A R : List Nat) (h : n ≤ A.length) :
    (A ++ R).take n = A.take n := by
  conv_lhs => rw [← List.take_append_drop n A]
  rw [List.append_assoc, List.take_left' (by simp [Nat.min_eq_left h])]

theorem drop_append_of_le (n : Nat) (A R : List Nat) (h : n ≤ A.length) :
    (A ++ R).drop n = A.drop n ++ R := by
  conv_lhs => rw [← List.take_append_drop n A]
  rw [List.append_assoc, List.drop_left' (by simp [Nat.min_eq_left h])]

theorem merge_and_outside (a b M n : Nat) (h : M &&& n = 0) :
    ((a &&& n) ||| (b &&& M)) &&& n = a &&& n := by
  rw [Nat.and_distrib_right, Nat.and_assoc, Nat.and_self,
    Nat.and_assoc, h, Nat.and_zero, Nat.or_zero]

/-- Field reads of the merged update record built from stored prefix,
candidate middle and the four merged bytes. -/
theorem merged_fields (r d : List Nat) (hrec : r.length = 52) (hd : 58 ≤ d.length)
    (f eM tM cM : Nat) :
    (r.take 38 ++ ((d.drop 38).take 6 ++
        ([f, eM, tM, cM] ++ (d.drop 48).take 4))).take 16 = r.take 16 ∧
    ((r.take 38 ++ ((d.drop 38).take 6 ++
        ([f, eM, tM, cM] ++ (d.drop 48).take 4))).drop 16).take 6 =
      (r.drop 16).take 6 ∧
    ((r.take 38 ++ ((d.drop 38).take 6 ++
        ([f, eM, tM, cM] ++ (d.drop 48).take 4))).drop 22).take 16 =
      (r.drop 22).take 16 ∧
    (r.take 38 ++ ((d.drop 38).take 6 ++
        ([f, eM, tM, cM] ++ (d.drop 48).take 4))).getD 44 0 = f ∧
    (r.take 38 ++ ((d.drop 38).take 6 ++
        ([f, eM, tM, cM] ++ (d.drop 48).take 4))).getD 45 0 = eM ∧
    (r.take 38 ++ ((d.drop 38).take 6 ++
        ([f, eM, tM, cM] ++ (d.drop 48).take 4))).getD 46 0 = tM ∧
    (r.take 38 ++ ((d.drop 38).take 6 ++
        ([f, eM, tM, cM] ++ (d.drop 48).take 4))).getD 47 0 = cM := by
  have hA : (r.take 38).length = 38 := by simp [hrec]
  have hACC : ((d.drop 38).take 6).length = 6 := by
    simp [List.length_take, List.length_drop]
    omega
  have hdrop44 : (r.take 38 ++ ((d.drop 38).take 6 ++
      ([f, eM, tM, cM] ++ (d.drop 48).take 4))).drop 44 =
      [f, eM, tM, cM] ++ (d.drop 48).take 4 := by
    rw [← List.append_assoc]
    exact List.drop_left' (by simp [hA, hACC])
  have hget : ∀ i v, i < 4 →
      (([f, eM, tM, cM] ++ (d.drop 48).take 4))[i]? = some v →
      (r.take 38 ++ ((d.drop 38).take 6 ++
        ([f, eM, tM, cM] ++ (d.drop 48).take 4))).getD (44 + i) 0 = v := by
    intro i v hi hv
    rw [List.getD_eq_getElem?_getD, ← List.getElem?_drop, hdrop44, hv]
    rfl
  refine ⟨?_, ?_, ?_, ?_, ?_, ?_, ?_⟩
  · rw [take_append_of_le 16 _ _ (by omega), List.take_take]
    norm_num
  · rw [drop_append_of_le 16 _ _ (by omega),
      take_append_of_le 6 _ _ (by simp [hrec]),
      List.drop_take, List.take_take]
    norm_num
  · rw [drop_append_of_le 22 _ _ (by omega),
      take_append_of_le 16 _ _ (by simp [hrec]),
      List.drop_take, List.take_take]
    norm_num
  · exact hget 0 f (by omega) (by simp)
  · exact hget 1 eM (by omega) (by simp)
  · exact hget 2 tM (by omega) (by simp)
  · exact hget 3 cM (by omega) (by simp)

/-- C4 (amended to the actual 52-byte record with the access code at
offset 52): a successful update preserves `fixed_data`, `uid`,
`aes_key` and `fixed_size`; `ext_flags`/`tkt_flags` change only inside
their update masks; `cfg_flags` is preserved verbatim for
challenge-response slots and changes only inside `CFGFLAG_UPDATE_MASK`
otherwise; and the 8-byte counter area is untouched. -/
theorem C4_update_preserves (ext : Ext) (is_otp : Bool) (st : DevState) (p1 : Nat)
    (d : List Nat) (s : Slot)
    (hp1 : p1 = 0x04 ∨ p1 = 0x05)
    (hsl : (if p1 = 0x04 then st.slot1 else st.slot2) = some s)
    (hrec : s.record.length = 52)
    (hd : 58 ≤ d.length)
    (hrfu : rfu0 d = 0 ∧ rfu1 d = 0)
    (hcrc : check_crc d = true)
    (hacc : acc_code s.record = (d.drop otp_config_size).take ACC_CODE_SIZE) :
    ∃ s', (if p1 = 0x04 then (cmd_otp ext is_otp st p1 0 d).st.slot1
           else (cmd_otp ext is_otp st p1 0 d).st.slot2) = some s' ∧
      (cmd_otp ext is_otp st p1 0 d).sw = SW_OK ∧
      fixed_data s'.record = fixed_data s.record ∧
      uid s'.record = uid s.record ∧
      aes_key s'.record = aes_key s.record ∧
      fixed_size s'.record = fixed_size s.record ∧
      ext_flags s'.record &&& (255 ^^^ EXTFLAG_UPDATE_MASK) =
        ext_flags s.record &&& (255 ^^^ EXTFLAG_UPDATE_MASK) ∧
      tkt_flags s'.record &&& (255 ^^^ TKTFLAG_UPDATE_MASK) =
        tkt_flags s.record &&& (255 ^^^ TKTFLAG_UPDATE_MASK) ∧
      (tkt_flags s.record &&& CHAL_RESP ≠ 0 →
        cfg_flags s'.record = cfg_flags s.record) ∧
      (tkt_flags s.record &&& CHAL_RESP = 0 →
        cfg_flags s'.record &&& (255 ^^^ CFGFLAG_UPDATE_MASK) =
          cfg_flags s.record &&& (255 ^^^ CFGFLAG_UPDATE_MASK)) ∧
      s'.ctr = s.ctr := by
  have hfields := merged_fields s.record d hrec hd
    (fixed_size s.record)
    ((ext_flags s.record &&& (255 ^^^ EXTFLAG_UPDATE_MASK)) |||
      (ext_flags d &&& EXTFLAG_UPDATE_MASK))
    ((tkt_flags s.record &&& (255 ^^^ TKTFLAG_UPDATE_MASK)) |||
      (tkt_flags d &&& TKTFLAG_UPDATE_MASK))
    (if tkt_flags s.record &&& CHAL_RESP = 0 then
      (cfg_flags s.record &&& (255 ^^^ CFGFLAG_UPDATE_MASK)) |||
        (cfg_flags d &&& CFGFLAG_UPDATE_MASK)
     else cfg_flags s.record)
  obtain ⟨hf16, hf6, hf16k, hg44, hg45, hg46, hg47⟩ := hfields
  have hextm : ((ext_flags s.record &&& (255 ^^^ EXTFLAG_UPDATE_MASK)) |||
      (ext_flags d &&& EXTFLAG_UPDATE_MASK)) &&& (255 ^^^ EXTFLAG_UPDATE_MASK) =
      ext_flags s.record &&& (255 ^^^ EXTFLAG_UPDATE_MASK) :=
    merge_and_outside _ _ _ _ (by decide)
  have htktm : ((tkt_flags s.record &&& (255 ^^^ TKTFLAG_UPDATE_MASK)) |||
      (tkt_flags d &&& TKTFLAG_UPDATE_MASK)) &&& (255 ^^^ TKTFLAG_UPDATE_MASK) =
      tkt_flags s.record &&& (255 ^^^ TKTFLAG_UPDATE_MASK) :=
    merge_and_outside _ _ _ _ (by decide)
  have hcfgm : ((cfg_flags s.record &&& (255 ^^^ CFGFLAG_UPDATE_MASK)) |||
      (cfg_flags d &&& CFGFLAG_UPDATE_MASK)) &&& (255 ^^^ CFGFLAG_UPDATE_MASK) =
      cfg_flags s.record &&& (255 ^^^ CFGFLAG_UPDATE_MASK) :=
    merge_and_outside _ _ _ _ (by decide)
  have hguard : ¬(rfu0 d ≠ 0 ∨ rfu1 d ≠ 0 ∨ check_crc d = false) := by
    simp [hrfu.1, hrfu.2, hcrc]
  rcases hp1 with h | h <;> subst h <;>
    [simp only [show ((0x04 : Nat) = 0x04) = True from by norm_num, if_true] at hsl;
     simp only [show ((0x05 : Nat) = 0x04) = False from by norm_num, if_false] at hsl] <;>
    refine ⟨⟨s.record.take 38 ++ ((d.drop 38).take 6 ++
        ([fixed_size s.record,
          (ext_flags s.record &&& (255 ^^^ EXTFLAG_UPDATE_MASK)) |||
            (ext_flags d &&& EXTFLAG_UPDATE_MASK),
          (tkt_flags s.record &&& (255 ^^^ TKTFLAG_UPDATE_MASK)) |||
            (tkt_flags d &&& TKTFLAG_UPDATE_MASK),
          if tkt_flags s.record &&& CHAL_RESP = 0 then
            (cfg_flags s.record &&& (255 ^^^ CFGFLAG_UPDATE_MASK)) |||
              (cfg_flags d &&& CFGFLAG_UPDATE_MASK)
          else cfg_flags s.record] ++ (d.drop 48).take 4)), s.ctr⟩,
      ?_, ?_, ?_, ?_, ?_, ?_, ?_, ?_, ?_, ?_, ?_⟩
  ·
    simp [cmd_otp, hsl, hguard, hacc, FIXED_SIZE, UID_SIZE, KEY_SIZE,
      ACC_CODE_SIZE, status_result]
  ·
    simp [cmd_otp, hsl, hguard, hacc, FIXED_SIZE, UID_SIZE, KEY_SIZE,
      ACC_CODE_SIZE, status_result, SW_OK]
  · exact hf16
  · exact hf6
  · exact hf16k
  · exact hg44
  ·
    show (_ : List Nat).getD 45 0 &&& _ = _
    rw [hg45]
    exact hextm
  ·
    show (_ : List Nat).getD 46 0 &&& _ = _
    rw [hg46]
    exact htktm
  ·
    intro hc
    show (_ : List Nat).getD 47 0 = _
    rw [hg47, if_neg hc]
  ·
    intro hc
    show (_ : List Nat).getD 47 0 &&& _ = _
    rw [hg47, if_pos hc]
    exact hcfgm
  · rfl
  ·
    simp [cmd_otp, hsl, hguard, hacc, FIXED_SIZE, UID_SIZE, KEY_SIZE,
      ACC_CODE_SIZE, status_result]
  ·
    simp [cmd_otp, hsl, hguard, hacc, FIXED_SIZE, UID_SIZE, KEY_SIZE,
      ACC_CODE_SIZE, status_result, SW_OK]
  · exact hf16
  · exact hf6
  · exact hf16k
  · exact hg44
  ·
    show (_ : List Nat).getD 45 0 &&& _ = _
    rw [hg45]
    exact hextm
  ·
    show (_ : List Nat).getD 46 0 &&& _ = _
    rw [hg46]
    exact htktm
  ·
    intro hc
    show (_ : List Nat).getD 47 0 = _
    rw [hg47, if_neg hc]
  ·
    intro hc
    show (_ : List Nat).getD 47 0 &&& _ = _
    rw [hg47, if_pos hc]
    exact hcfgm
  · rfl

/-- A concrete stored slot for the update claims: access code
`5,5,5,5,5,5`, all flag bytes zero. -/
def c4StoredSlot : Slot :=
  ⟨List.replicate 38 3 ++ [5, 5, 5, 5, 5, 5] ++ List.replicate 8 0,
   [1, 2, 3, 4, 5, 6, 7, 8]⟩

/-- A CRC-valid 52-byte candidate whose access-code authenticator
`5,5,5,5,5,5` is placed at offset 58 (where the claim's 58-byte record
would put it) while offset 52 (where the code reads it) holds 9s. -/
def c4Candidate : List Nat :=
  (List.replicate 48 2 ++ [0, 0]) ++
    put_uint16_t_le (65535 - calculate_crc (List.replicate 48 2 ++ [0, 0])) ++
    [9, 9, 9, 9, 9, 9] ++ [5, 5, 5, 5, 5, 5]

/-- Counterexample to C4 as stated: the record is 52 bytes, not 58; an
update whose authenticator matches at the claim's offset 58 is refused
with `SW_SECURITY_STATUS_NOT_SATISFIED`, because the code compares
the 6 bytes at offset `otp_config_size` = 52. -/
theorem C4_acc_code_offset_cex :
    acc_code c4StoredSlot.record = (c4Candidate.drop 58).take 6 ∧
    (cmd_otp extDemo false ⟨some c4StoredSlot, none, 0, 0⟩ 0x04 0 c4Candidate).sw =
      SW_SECURITY_STATUS_NOT_SATISFIED ∧
    (cmd_otp extDemo false ⟨some c4StoredSlot, none, 0, 0⟩ 0x04 0 c4Candidate).sw ≠
      SW_OK ∧
    otp_config_size = 52 ∧ otp_config_size ≠ 58 := by
  decide

/-- A CRC-valid candidate whose authenticator matches the stored access
code at the real offset 52. -/
def c4GoodCandidate : List Nat :=
  (List.replicate 48 2 ++ [0, 0]) ++
    put_uint16_t_le (65535 - calculate_crc (List.replicate 48 2 ++ [0, 0])) ++
    [5, 5, 5, 5, 5, 5] ++ [0, 0, 0, 0, 0, 0]

/-- Witness instance of C4 (amended) at a concrete stored slot and
candidate. -/
theorem C4_update_preserves_witness :
    ∃ s', (cmd_otp extDemo false ⟨some c4StoredSlot, none, 0, 0⟩ 0x04 0
        c4GoodCandidate).st.slot1 = some s' ∧
      uid s'.record = uid c4StoredSlot.record ∧
      aes_key s'.record = aes_key c4StoredSlot.record ∧
      s'.ctr = c4StoredSlot.ctr := by
  obtain ⟨s', h1, _, _, h4, h5, _, _, _, _, _, h11⟩ :=
    C4_update_preserves extDemo false ⟨some c4StoredSlot, none, 0, 0⟩ 0x04
      c4GoodCandidate c4StoredSlot (Or.inl rfl) (by decide) (by decide)
      (by decide) ⟨by decide, by decide⟩ (by decide) (by decide)
  exact ⟨s', h1, h4, h5, h11⟩

/-! ### Claim C5: `config_seq` accounting and durability -/

/-- Every `file_put_data` event is followed by a later
`low_flash_available` flush.  (`delete_file` is modelled from the spec
as durable by itself: its implementation is not under `src/`.) -/
def putsFlushed : List Ev → Bool
  | [] => true
  | Ev.put _ :: rest => rest.contains Ev.flush && putsFlushed rest
  | _ :: rest => putsFlushed rest

/-- C5: every command either is a successful mutating operation
(configure/delete/update/swap) — and then `config_seq` has incremented
by exactly one as an 8-bit counter and every write was flushed before
the response — or it leaves `config_seq` and both slots unchanged and
performs no store event; applet selection resets `config_seq` to 1 or
0 according to slot presence. -/
theorem C5_config_seq (ext : Ext) (is_otp : Bool) (st : DevState) (p1 p2 : Nat)
    (d : List Nat) :
    ((p2 = 0 ∧ (p1 = 0x01 ∨ p1 = 0x03 ∨ p1 = 0x04 ∨ p1 = 0x05 ∨ p1 = 0x06) ∧
      (cmd_otp ext is_otp st p1 p2 d).sw = SW_OK ∧
      (cmd_otp ext is_otp st p1 p2 d).evs ≠ [] ∧
      (cmd_otp ext is_otp st p1 p2 d).st.config_seq = (st.config_seq + 1) % 256 ∧
      putsFlushed (cmd_otp ext is_otp st p1 p2 d).evs = true) ∨
     ((cmd_otp ext is_otp st p1 p2 d).st.config_seq = st.config_seq ∧
      (cmd_otp ext is_otp st p1 p2 d).st.slot1 = st.slot1 ∧
      (cmd_otp ext is_otp st p1 p2 d).st.slot2 = st.slot2 ∧
      (cmd_otp ext is_otp st p1 p2 d).evs = [])) ∧
    (otp_select st).config_seq =
      (if st.slot1.isSome ∨ st.slot2.isSome then 1 else 0) := by
  refine ⟨?_, by simp [otp_select]⟩
  by_cases hp2 : p2 = 0
  · subst hp2
    by_cases h13 : p1 = 0x01 ∨ p1 = 0x03
    · -- configure / delete
      rcases hsl : (if p1 = 0x01 then st.slot1 else st.slot2) with _ | s
      · by_cases hz : ∃ x ∈ d.take otp_config_size, ¬x = 0
        · by_cases hg : rfu0 d ≠ 0 ∨ rfu1 d ≠ 0 ∨ check_crc d = false
          · right
            simp [cmd_otp, h13, hsl, hz, hg, errResult]
          · left
            refine ⟨rfl, by tauto, ?_⟩
            simp [cmd_otp, h13, hsl, hz, hg, status_result, putsFlushed, SW_OK,
              List.contains]
        · left
          refine ⟨rfl, by tauto, ?_⟩
          simp [cmd_otp, h13, hsl, hz, status_result, putsFlushed, SW_OK]
      · by_cases hb : acc_code s.record = (d.drop otp_config_size).take ACC_CODE_SIZE
        · by_cases hz : ∃ x ∈ d.take otp_config_size, ¬x = 0
          · by_cases hg : rfu0 d ≠ 0 ∨ rfu1 d ≠ 0 ∨ check_crc d = false
            · right
              simp [cmd_otp, h13, hsl, hb, hz, hg, errResult]
            · left
              refine ⟨rfl, by tauto, ?_⟩
              simp [cmd_otp, h13, hsl, hb, hz, hg, status_result, putsFlushed,
                SW_OK, List.contains]
          · left
            refine ⟨rfl, by tauto, ?_⟩
            simp [cmd_otp, h13, hsl, hb, hz, status_result, putsFlushed, SW_OK]
        · right
          simp [cmd_otp, h13, hsl, hb, errResult]
    · by_cases h45 : p1 = 0x04 ∨ p1 = 0x05
      · -- update
        by_cases hg : rfu0 d ≠ 0 ∨ rfu1 d ≠ 0 ∨ check_crc d = false
        · right
          simp [cmd_otp, h13, h45, hg, errResult]
        · rcases hsl : (if p1 = 0x04 then st.slot1 else st.slot2) with _ | s
          · right
            simp [cmd_otp, h13, h45, hg, hsl, status_result]
          · by_cases hb : acc_code s.record =
                (d.drop otp_config_size).take ACC_CODE_SIZE
            · left
              refine ⟨rfl, by tauto, ?_⟩
              simp [cmd_otp, h13, h45, hg, hsl, hb, status_result, putsFlushed,
                SW_OK, List.contains]
            · right
              simp [cmd_otp, h13, h45, hg, hsl, hb, errResult]
      · by_cases h6 : p1 = 0x06
        · -- swap
          left
          refine ⟨rfl, by tauto, ?_⟩
          rcases hs1 : st.slot1 with _ | s1 <;> rcases hs2 : st.slot2 with _ | s2 <;>
            simp [cmd_otp, h13, h45, h6, hs1, hs2, status_result, putsFlushed,
              SW_OK, List.contains]
        · -- non-mutating commands
          right
          by_cases h10 : p1 = 0x10
          · simp [cmd_otp, h13, h45, h6, h10]
          · by_cases hm : p1 = 0x13
            · simp [cmd_otp, h13, h45, h6, h10, hm]
            · by_cases hcr : p1 = 0x30 ∨ p1 = 0x38 ∨ p1 = 0x20 ∨ p1 = 0x28
              · rcases hsl : (if p1 = 0x30 ∨ p1 = 0x20 then st.slot1 else st.slot2)
                  with _ | s
                · simp [cmd_otp, h13, h45, h6, h10, hm, hcr, hsl]
                · simp only [cmd_otp, h13, h45, h6, h10, hm, hcr, hsl]
                  norm_num
                  split_ifs <;> simp [errResult]
              · simp [cmd_otp, h13, h45, h6, h10, hm, hcr]
  · right
    simp [cmd_otp, hp2, errResult]

/-! ### Claim C6: swap exchanges the slots and is an involution -/

/-- C6 (amended to the actual 52-byte record + 8-byte counter area,
60 stored bytes): the swap command exchanges the full stored contents
of the two slots in every presence combination — after it, slot 1
holds what slot 2 held and vice versa (an absent side stays absent on
the other) — and performing it twice restores the original pair. -/
theorem C6_swap_exchanges (ext : Ext) (is_otp : Bool) (st : DevState)
    (d d2 : List Nat) :
    (cmd_otp ext is_otp st 0x06 0 d).st.slot1 = st.slot2 ∧
    (cmd_otp ext is_otp st 0x06 0 d).st.slot2 = st.slot1 ∧
    (cmd_otp ext is_otp st 0x06 0 d).sw = SW_OK ∧
    (cmd_otp ext is_otp (cmd_otp ext is_otp st 0x06 0 d).st 0x06 0 d2).st.slot1 =
      st.slot1 ∧
    (cmd_otp ext is_otp (cmd_otp ext is_otp st 0x06 0 d).st 0x06 0 d2).st.slot2 =
      st.slot2 := by
  refine ⟨?_, ?_, ?_, ?_, ?_⟩ <;> simp [cmd_otp, status_result, SW_OK]

/-- A CRC-valid, non-zero 52-byte record with zero rfu bytes. -/
def c6Record : List Nat :=
  (List.replicate 48 1 ++ [0, 0]) ++
    put_uint16_t_le (65535 - calculate_crc (List.replicate 48 1 ++ [0, 0]))

/-- Counterexample to C6 as stated: the stored contents of a slot are a
52-byte record (plus the 8-byte counter area), not a 58-byte record —
configuring a slot stores exactly 52 record bytes. -/
theorem C6_record_size_cex :
    (cmd_otp extDemo false ⟨none, none, 0, 0⟩ 0x01 0 c6Record).st.slot1 =
      some ⟨c6Record.take 52, List.replicate 8 0⟩ ∧
    (c6Record.take 52).length = 52 ∧ ¬(c6Record.take 52).length = 58 := by
  decide

/-! ### Claim C8: the status block -/

/-- The `opts` bits of the status block: bit 0/1 flag a configured
slot 1/2, bit 2/3 flag touch mode (not challenge-response, or
`CHAL_BTN_TRIG`). -/
theorem otp_status_opts_testBits (sl1 sl2 : Option Slot) (cseq sb : Nat) :
    ((otp_status_opts ⟨sl1, sl2, cseq, sb⟩).testBit 0 = sl1.isSome) ∧
    ((otp_status_opts ⟨sl1, sl2, cseq, sb⟩).testBit 1 = sl2.isSome) ∧
    ((otp_status_opts ⟨sl1, sl2, cseq, sb⟩).testBit 2 = (match sl1 with
      | some s => decide (tkt_flags s.record &&& CHAL_RESP = 0 ∨
          cfg_flags s.record &&& CHAL_BTN_TRIG ≠ 0)
      | none => false)) ∧
    ((otp_status_opts ⟨sl1, sl2, cseq, sb⟩).testBit 3 = (match sl2 with
      | some s => decide (tkt_flags s.record &&& CHAL_RESP = 0 ∨
          cfg_flags s.record &&& CHAL_BTN_TRIG ≠ 0)
      | none => false)) := by
  cases sl1 with
  | none =>
    cases sl2 with
    | none => refine ⟨?_, ?_, ?_, ?_⟩ <;> simp [otp_status_opts]
    | some s2 =>
      by_cases h2 : tkt_flags s2.record &&& CHAL_RESP = 0 ∨
          cfg_flags s2.record &&& CHAL_BTN_TRIG ≠ 0 <;>
        refine ⟨?_, ?_, ?_, ?_⟩ <;>
        simp [otp_status_opts, h2, CONFIG1_VALID, CONFIG2_VALID, CONFIG1_TOUCH,
          CONFIG2_TOUCH] <;> decide
  | some s1 =>
    cases sl2 with
    | none =>
      by_cases h1 : tkt_flags s1.record &&& CHAL_RESP = 0 ∨
          cfg_flags s1.record &&& CHAL_BTN_TRIG ≠ 0 <;>
        refine ⟨?_, ?_, ?_, ?_⟩ <;>
        simp [otp_status_opts, h1, CONFIG1_VALID, CONFIG2_VALID, CONFIG1_TOUCH,
          CONFIG2_TOUCH] <;> decide
    | some s2 =>
      by_cases h1 : tkt_flags s1.record &&& CHAL_RESP = 0 ∨
          cfg_flags s1.record &&& CHAL_BTN_TRIG ≠ 0 <;>
      by_cases h2 : tkt_flags s2.record &&& CHAL_RESP = 0 ∨
          cfg_flags s2.record &&& CHAL_BTN_TRIG ≠ 0 <;>
        refine ⟨?_, ?_, ?_, ?_⟩ <;>
        simp [otp_status_opts, h1, h2, CONFIG1_VALID, CONFIG2_VALID,
          CONFIG1_TOUCH, CONFIG2_TOUCH] <;> decide

/-- C8 (amended): in the APDU context the status block is **7** bytes
`major, minor, 0, config_seq, opts, 0, status_byte` (no leading
reserved byte) with `res_APDU_size = 7`; in the HID context the same 7
bytes are placed at offsets 1..7 of the report, offset 0 is left as it
was, and `res_APDU_size` is reset to 0.  `opts` flags configured slots
in bits 0/1 and touch mode in bits 2/3. -/
theorem C8_status_layout (major minor : Nat) (st : DevState) (buf : List Nat)
    (hbuf : 1 ≤ buf.length) :
    (otp_status_fill false major minor st buf).2 = 7 ∧
    (otp_status_fill false major minor st buf).1.take 7 =
      [major % 256, minor % 256, 0, st.config_seq % 256, otp_status_opts st, 0,
        st.status_byte % 256] ∧
    (otp_status_fill true major minor st buf).2 = 0 ∧
    (otp_status_fill true major minor st buf).1.take 1 = buf.take 1 ∧
    ((otp_status_fill true major minor st buf).1.drop 1).take 7 =
      [major % 256, minor % 256, 0, st.config_seq % 256, otp_status_opts st, 0,
        st.status_byte % 256] ∧
    ((otp_status_opts st).testBit 0 = st.slot1.isSome) ∧
    ((otp_status_opts st).testBit 1 = st.slot2.isSome) ∧
    ((otp_status_opts st).testBit 2 = (match st.slot1 with
      | some s => decide (tkt_flags s.record &&& CHAL_RESP = 0 ∨
          cfg_flags s.record &&& CHAL_BTN_TRIG ≠ 0)
      | none => false)) ∧
    ((otp_status_opts st).testBit 3 = (match st.slot2 with
      | some s => decide (tkt_flags s.record &&& CHAL_RESP = 0 ∨
          cfg_flags s.record &&& CHAL_BTN_TRIG ≠ 0)
      | none => false)) := by
  obtain ⟨sl1, sl2, cseq, sb⟩ := st
  have h1 : (buf.take 1).length = 1 := by
    simp [List.length_take]
    omega
  obtain ⟨hb0, hb1, hb2, hb3⟩ := otp_status_opts_testBits sl1 sl2 cseq sb
  refine ⟨rfl, ?_, rfl, ?_, ?_, hb0, hb1, hb2, hb3⟩
  · simp [otp_status_fill, writeAt, otp_status_bytes]
  · simp only [otp_status_fill, writeAt, if_true, List.append_assoc]
    rw [take_append_of_le 1 _ _ (by rw [h1]), List.take_take]
    norm_num
  · simp only [otp_status_fill, writeAt, if_true, List.append_assoc]
    rw [List.drop_left' h1]
    simp [otp_status_bytes]

/-- Counterexample to C8 as stated: in the APDU context the builder
produces 7 bytes, not 8, and the first byte is the version major (5
here), not a reserved zero. -/
theorem C8_apdu_layout_cex :
    (otp_status_fill false 5 7 ⟨none, none, 0, 0⟩ (List.replicate 8 9)).2 = 7 ∧
    ¬(otp_status_fill false 5 7 ⟨none, none, 0, 0⟩ (List.replicate 8 9)).2 = 8 ∧
    (otp_status_fill false 5 7 ⟨none, none, 0, 0⟩ (List.replicate 8 9)).1.getD 0 0 =
      5 ∧
    ¬(otp_status_fill false 5 7 ⟨none, none, 0, 0⟩
        (List.replicate 8 9)).1.getD 0 0 = 0 := by
  decide

/-- Witness instance of C8 (amended) at a concrete state and buffer. -/
theorem C8_status_layout_witness :
    ((otp_status_fill true 5 7 ⟨some noChalSlot, none, 3, 0⟩
        (List.replicate 8 9)).1.drop 1).take 7 =
      [5 % 256, 7 % 256, 0, 3 % 256,
        otp_status_opts ⟨some noChalSlot, none, 3, 0⟩, 0, 0 % 256] :=
  (C8_status_layout 5 7 ⟨some noChalSlot, none, 3, 0⟩ (List.replicate 8 9)
    (by decide)).2.2.2.2.1

/-! ### Claim C9: HID frames with bad CRC are silently dropped -/

/-- C9: when the final fragment (sequence 9) completes a frame whose
CRC over bytes 0..63 does not match the little-endian value at bytes
65..66, no APDU is dispatched, the device state is unchanged, no reply
is armed, and a subsequent GET_REPORT returns a status frame. -/
theorem C9_bad_crc_dropped (ext : Ext) (hs : HidState) (buf prev : List Nat)
    (hff : buf.getD 7 0 ≠ 0xFF)
    (h80 : buf.getD 7 0 &&& 0x80 ≠ 0)
    (h9 : buf.getD 7 0 &&& 0x1F = 9)
    (htx : hs.txLen = 0) (hexp : hs.expSeq = 0)
    (hcrc : calculate_crc ((writeAt hs.rx 63 (buf.take 7)).take 64) ≠
      get_uint16_t_le (writeAt hs.rx 63 (buf.take 7)) 65) :
    (otp_hid_set_report ext hs buf).dispatched = false ∧
    (otp_hid_set_report ext hs buf).st.dev = hs.dev ∧
    (otp_hid_set_report ext hs buf).st.txLen = 0 ∧
    (otp_hid_set_report ext hs buf).st.expSeq = 0 ∧
    (otp_hid_get_report ext (otp_hid_set_report ext hs buf).st prev).1 =
      .status (otp_status_fill true ext.major ext.minor hs.dev prev).1 := by
  have hset : otp_hid_set_report ext hs buf =
      ⟨{ hs with rx := writeAt hs.rx 63 (buf.take 7) }, false⟩ := by
    simp only [otp_hid_set_report]
    rw [if_neg hff, if_pos h80, h9,
      if_pos (show (9 : Nat) < 10 from by norm_num),
      if_neg (show ¬(9 : Nat) = 0 from by norm_num),
      if_pos (show (9 : Nat) = 9 from rfl),
      show (9 * 7 : Nat) = 63 from by norm_num,
      if_neg hcrc]
  rw [hset]
  refine ⟨rfl, rfl, htx, hexp, ?_⟩
  simp only [otp_hid_get_report, htx, hexp]
  rw [if_neg (by norm_num), if_neg (by simp)]

/-- An all-zero initial HID state. -/
def c9HidState : HidState :=
  ⟨⟨none, none, 0, 0⟩, List.replicate 70 0, List.replicate 70 0, 0, 0, 0⟩

/-- Witness instance of C9: a concrete sequence-9 report whose
reassembled frame fails the CRC check. -/
theorem C9_bad_crc_dropped_witness :
    (otp_hid_set_report extDemo c9HidState [1, 2, 3, 4, 5, 6, 7, 0x89]).dispatched =
      false ∧
    (otp_hid_get_report extDemo
        (otp_hid_set_report extDemo c9HidState [1, 2, 3, 4, 5, 6, 7, 0x89]).st
        (List.replicate 8 0)).1 =
      .status (otp_status_fill true extDemo.major extDemo.minor c9HidState.dev
        (List.replicate 8 0)).1 := by
  have h := C9_bad_crc_dropped extDemo c9HidState [1, 2, 3, 4, 5, 6, 7, 0x89]
    (List.replicate 8 0) (by decide) (by decide) (by decide) (by decide)
    (by decide) (by decide!)
  exact ⟨h.1, h.2.2.2.2⟩

/-! ### Claim C10: mutating commands over HID never arm a reply -/

/-- For any mutating P1 dispatched in the HID context (`is_otp` true),
the command never produces a successful status word together with a
non-empty response body, because every success path ends in the status
builder, which zeroes `res_APDU_size` in that context. -/
theorem cmd_otp_mutating_no_body (ext : Ext) (st : DevState) (p1 p2 : Nat)
    (d : List Nat)
    (hp1 : p1 = 0x01 ∨ p1 = 0x03 ∨ p1 = 0x04 ∨ p1 = 0x05 ∨ p1 = 0x06) :
    ¬((cmd_otp ext true st p1 p2 d).sw = SW_OK ∧
      (cmd_otp ext true st p1 p2 d).resSize > 0) := by
  by_cases hp2 : p2 = 0
  · subst hp2
    have h1345 : p1 = 0x01 ∨ p1 = 0x03 ∨ p1 = 0x04 ∨ p1 = 0x05 ∨ p1 = 0x06 := hp1
    by_cases h13 : p1 = 0x01 ∨ p1 = 0x03
    · rcases hsl : (if p1 = 0x01 then st.slot1 else st.slot2) with _ | s
      · by_cases hz : ∃ x ∈ d.take otp_config_size, ¬x = 0
        · by_cases hg : rfu0 d ≠ 0 ∨ rfu1 d ≠ 0 ∨ check_crc d = false
          · simp [cmd_otp, h13, hsl, hz, hg, errResult, SW_OK, SW_WRONG_DATA]
          · simp [cmd_otp, h13, hsl, hz, hg, status_result]
        · simp [cmd_otp, h13, hsl, hz, status_result]
      · by_cases hb : acc_code s.record = (d.drop otp_config_size).take ACC_CODE_SIZE
        · by_cases hz : ∃ x ∈ d.take otp_config_size, ¬x = 0
          · by_cases hg : rfu0 d ≠ 0 ∨ rfu1 d ≠ 0 ∨ check_crc d = false
            · simp [cmd_otp, h13, hsl, hb, hz, hg, errResult, SW_OK, SW_WRONG_DATA]
            · simp [cmd_otp, h13, hsl, hb, hz, hg, status_result]
          · simp [cmd_otp, h13, hsl, hb, hz, status_result]
        · simp [cmd_otp, h13, hsl, hb, errResult, SW_OK,
            SW_SECURITY_STATUS_NOT_SATISFIED]
    · by_cases h45 : p1 = 0x04 ∨ p1 = 0x05
      · by_cases hg : rfu0 d ≠ 0 ∨ rfu1 d ≠ 0 ∨ check_crc d = false
        · simp [cmd_otp, h13, h45, hg, errResult, SW_OK, SW_WRONG_DATA]
        · rcases hsl : (if p1 = 0x04 then st.slot1 else st.slot2) with _ | s
          · simp [cmd_otp, h13, h45, hg, hsl, status_result]
          · by_cases hb : acc_code s.record =
                (d.drop otp_config_size).take ACC_CODE_SIZE
            · simp [cmd_otp, h13, h45, hg, hsl, hb, status_result]
            · simp [cmd_otp, h13, h45, hg, hsl, hb, errResult, SW_OK,
                SW_SECURITY_STATUS_NOT_SATISFIED]
      · have h6 : p1 = 0x06 := by tauto
        simp [cmd_otp, h13, h45, h6, status_result]
  · simp [cmd_otp, hp2, errResult, SW_OK, SW_INCORRECT_P1P2]

/-- C10: a complete HID frame whose slot byte selects a mutating
command (configure 0x01/0x03, update 0x04/0x05, swap 0x06) is
dispatched but never arms a reply — the send buffer and expected
sequence count stay zero — so the host only observes the outcome via
subsequent GET_REPORT status frames. -/
theorem C10_hid_mutating_no_reply (ext : Ext) (hs : HidState) (buf prev : List Nat)
    (hff : buf.getD 7 0 ≠ 0xFF)
    (h80 : buf.getD 7 0 &&& 0x80 ≠ 0)
    (h9 : buf.getD 7 0 &&& 0x1F = 9)
    (htx : hs.txLen = 0) (hexp : hs.expSeq = 0)
    (hcrc : calculate_crc ((writeAt hs.rx 63 (buf.take 7)).take 64) =
      get_uint16_t_le (writeAt hs.rx 63 (buf.take 7)) 65)
    (hslot : (writeAt hs.rx 63 (buf.take 7)).getD 64 0 = 0x01 ∨
      (writeAt hs.rx 63 (buf.take 7)).getD 64 0 = 0x03 ∨
      (writeAt hs.rx 63 (buf.take 7)).getD 64 0 = 0x04 ∨
      (writeAt hs.rx 63 (buf.take 7)).getD 64 0 = 0x05 ∨
      (writeAt hs.rx 63 (buf.take 7)).getD 64 0 = 0x06) :
    (otp_hid_set_report ext hs buf).dispatched = true ∧
    (otp_hid_set_report ext hs buf).st.txLen = 0 ∧
    (otp_hid_set_report ext hs buf).st.expSeq = 0 ∧
    (otp_hid_get_report ext (otp_hid_set_report ext hs buf).st prev).1 =
      .status (otp_status_fill true ext.major ext.minor
        (otp_hid_set_report ext hs buf).st.dev prev).1 := by
  have hnb := cmd_otp_mutating_no_body ext hs.dev
    ((writeAt hs.rx 63 (buf.take 7)).getD 64 0) 0
    ((writeAt hs.rx 63 (buf.take 7)).take 64) hslot
  have hset : otp_hid_set_report ext hs buf =
      ⟨{ hs with
          rx := writeAt hs.rx 63 (buf.take 7)
          dev := (cmd_otp ext true hs.dev ((writeAt hs.rx 63 (buf.take 7)).getD 64 0)
            0 ((writeAt hs.rx 63 (buf.take 7)).take 64)).st }, true⟩ := by
    simp only [otp_hid_set_report, otp_process_apdu]
    rw [if_neg hff, if_pos h80, h9,
      if_pos (show (9 : Nat) < 10 from by norm_num),
      if_neg (show ¬(9 : Nat) = 0 from by norm_num),
      if_pos (show (9 : Nat) = 9 from rfl),
      show (9 * 7 : Nat) = 63 from by norm_num,
      if_pos hcrc,
      if_neg (show ¬(0 : Nat) ≠ 0 from by norm_num)]
    rw [if_true]
    rw [if_neg hnb]
  rw [hset]
  refine ⟨rfl, htx, hexp, ?_⟩
  simp only [otp_hid_get_report, htx, hexp]
  rw [if_neg (by norm_num), if_neg (by simp)]

/-- A complete, CRC-valid frame of zeros with slot byte 1: an all-zero
configure, i.e. a delete of slot 1. -/
def c10Buf : List Nat :=
  [0, 1] ++ put_uint16_t_le (calculate_crc (List.replicate 64 0)) ++ [0, 0, 0, 0x89]

/-- Witness instance of C10: the mutating frame is dispatched and no
reply is armed. -/
theorem C10_hid_mutating_no_reply_witness :
    (otp_hid_set_report extDemo c9HidState c10Buf).dispatched = true ∧
    (otp_hid_set_report extDemo c9HidState c10Buf).st.txLen = 0 ∧
    (otp_hid_set_report extDemo c9HidState c10Buf).st.expSeq = 0 := by
  have h := C10_hid_mutating_no_reply extDemo c9HidState c10Buf
    (List.replicate 8 0) (by decide) (by decide) (by decide) (by decide)
    (by decide) (by decide!) (by decide!)
  exact ⟨h.1, h.2.1, h.2.2.1⟩

end PicoFido
